import Mathlib

/-!
Verification development for the kaizenflow repository.

The development shallowly embeds the artifacts of the repository:
the credential-check and markdown-lint shell scripts, and the captured
execution record of the example tiled-backtest system
(`dataflow/pipelines/examples/test/run_Test_Example1_TiledBacktest.sh`),
which records the `OrderProcessor` polling-loop events, the
`RealTimeDagRunner` bar events, the fills, and the `DatabasePortfolio`
ledger and statistics tables of the run.

Numeric conventions: wall-clock instants are seconds since midnight
(2000-01-01, America/New_York) as naturals, or as rationals where the
artifact records sub-second instants; share quantities and prices are
rationals, taken at the full precision the artifact prints.
-/

namespace Kaizenflow

/-! ## Shell embedding

Semantics of the fragments of bash that the scripts under scrutiny use:
a filesystem state, the `[ -e path ]` test, variable lookup in an
environment of string bindings, and `set -e` sequencing of exit codes. -/

/-- A filesystem state: which path names an existing file. -/
def FsState : Type := String → Bool

/-- Bash `[ -e p ]`: true when `p` names an existing file.  The empty
string (the expansion of an unset variable) names no file under any
filesystem state. -/
def testE (fs : FsState) (p : String) : Bool := !(p == "") && fs p

/-- Bash parameter expansion `$x`: an unset variable expands to the
empty string. -/
def lookupVar (env : List (String × String)) (x : String) : String :=
  match env.find? (fun p => p.1 == x) with
  | some p => p.2
  | none => ""

/-- `set -e` sequencing: the script's exit status is the first non-zero
status among its commands, and `0` if every command succeeds. -/
def runSeq : List Nat → Nat
  | [] => 0
  | s :: rest => if s == 0 then runSeq rest else s

/-- Exit status of `echo`: always `0`. -/
def echoStatus : Nat := 0

/-- Exit status of a bash `if cond; then body; fi` statement with no
else-branch: the body's status when the condition holds, and `0` when
the condition fails. -/
def ifStatus (cond : Bool) (bodyStatus : Nat) : Nat :=
  if cond then bodyStatus else 0

/-! ## The credential-check script (`src/unnamed/part_000`, second document)

```
AWS_VOLUME="${HOME}/.aws/"
GSPREAD_PANDAS_VOLUME="${HOME}/.config/gspread_pandas/"

test_aws() {
  local _aws_cred_file="${AWS_VOLUME}credentials"
  local _aws_conf_file="${AWS_VOLUME}config"
  if [ ! -e "$_aws_cred_file" ]; then echo ...WARNING...; fi
  if [ ! -e "$_aws_conf_file" ]; then echo ...WARNING...; fi
}

test_gspread_pandas() {
  local _google_secret_file="${GSPREAD_PANDAS_VOLUME}google_secret.json"
  local _google_cred_file="${GSPREAD_PANDAS_VOLUME}creds/default"
  if [ ! -e "$_aws_cred_file" ]; then echo ...WARNING about google_secret...; fi
  if [ ! -e "$_google_cred_file" ]; then echo ...WARNING...; fi
}

test_aws
test_gspread_pandas
```

`local` variables of `test_aws` are gone once it returns, so when
`test_gspread_pandas` runs, `_aws_cred_file` is unset and its expansion
is the empty string.  Each function is modelled as the list of WARNING
messages it echoes together with its exit status. -/

/-- `AWS_VOLUME="${HOME}/.aws/"`. -/
def AWS_VOLUME (home : String) : String := home ++ "/.aws/"

/-- `GSPREAD_PANDAS_VOLUME="${HOME}/.config/gspread_pandas/"`. -/
def GSPREAD_PANDAS_VOLUME (home : String) : String :=
  home ++ "/.config/gspread_pandas/"

/-- The WARNING message about a missing file `f` (the text after the
color escape). -/
def warnMsg (what : String) (f : String) : String :=
  "WARNING: " ++ what ++ " credential check failed: can't find " ++ f ++ " file."

/-- The environment of variable bindings in scope inside
`test_gspread_pandas`: only its own two `local` variables; the `local`
bindings of `test_aws` no longer exist. -/
def gspreadEnv (home : String) : List (String × String) :=
  [(("_google_secret_file"), GSPREAD_PANDAS_VOLUME home ++ "google_secret.json"),
   (("_google_cred_file"), GSPREAD_PANDAS_VOLUME home ++ "creds/default")]

/-- The WARNING messages echoed by `test_gspread_pandas`: the first
conditional tests `$_aws_cred_file` (unset in this scope) yet warns
about `$_google_secret_file`; the second tests `$_google_cred_file`. -/
def test_gspread_pandas (home : String) (fs : FsState) : List String :=
  (if !(testE fs (lookupVar (gspreadEnv home) ("_aws_cred_file")))
   then [warnMsg ("Google API") (lookupVar (gspreadEnv home) ("_google_secret_file"))]
   else [])
  ++
  (if !(testE fs (lookupVar (gspreadEnv home) ("_google_cred_file")))
   then [warnMsg ("Google API") (lookupVar (gspreadEnv home) ("_google_cred_file"))]
   else [])

/-- The WARNING messages echoed by `test_aws`. -/
def test_aws (home : String) (fs : FsState) : List String :=
  (if !(testE fs (AWS_VOLUME home ++ "credentials"))
   then [warnMsg ("AWS") (AWS_VOLUME home ++ "credentials")]
   else [])
  ++
  (if !(testE fs (AWS_VOLUME home ++ "config"))
   then [warnMsg ("AWS") (AWS_VOLUME home ++ "config")]
   else [])

/-- Exit status of `test_aws`: the status of its last command, the
second `if` statement, whose body is an `echo`. -/
def test_aws_status (home : String) (fs : FsState) : Nat :=
  ifStatus (!(testE fs (AWS_VOLUME home ++ "config"))) echoStatus

/-- Exit status of `test_gspread_pandas`: the status of its last
command, the second `if` statement, whose body is an `echo`. -/
def test_gspread_pandas_status (home : String) (fs : FsState) : Nat :=
  ifStatus (!(testE fs (lookupVar (gspreadEnv home) ("_google_cred_file"))))
    echoStatus

/-- Exit status of the whole credential-check script under `set -e`:
the two top-level assignments (status 0) followed by the two function
calls. -/
def credentialScriptExit (home : String) (fs : FsState) : Nat :=
  runSeq [0, 0, test_aws_status home fs, test_gspread_pandas_status home fs]

/-! ## The markdown-lint script (`src/dev_scripts/lint_md.sh`)

The script builds a Docker image tagged with `$DOCKER_CONTAINER_NAME`
(`sorrentum_mdlint`) and then executes `docker run ... markdownlint:latest`.
It is modelled as the sequence of Docker commands issued for a given
list of input files. -/

/-- A Docker command issued by `lint_md.sh`: building an image with a
tag, or running a container from an image with arguments. -/
inductive DockerCmd : Type
  | build (tag : String)
  | run (image : String) (args : List String)
  deriving DecidableEq

/-- `export DOCKER_CONTAINER_NAME="sorrentum_mdlint"`. -/
def DOCKER_CONTAINER_NAME : String := "sorrentum_mdlint"

/-- The Docker commands issued by `lint_md.sh` on input files `files`:
`docker build -f $TMP_FILENAME -t $DOCKER_CONTAINER_NAME .` then
`docker run --rm -it ... markdownlint:latest $CMD`. -/
def lintMdDockerCmds (files : List String) : List DockerCmd :=
  [DockerCmd.build DOCKER_CONTAINER_NAME,
   DockerCmd.run ("markdownlint:latest") files]

/-- The image named by the `docker run` step of `lint_md.sh`. -/
def lintMdRunImage (files : List String) : String :=
  match (lintMdDockerCmds files).find? (fun c => match c with
    | DockerCmd.run _ _ => true
    | _ => false) with
  | some (DockerCmd.run img _) => img
  | _ => ""

/-! ## The OrderProcessor of the captured run

Configuration and counters printed at line 1240 of the artifact:

```
OrderProcessor at 0x=(..., bar_duration_in_secs=300,
  termination_condition=2000-01-01 10:10:05-05:00,
  max_wait_time_for_order_in_secs=305, _delay_to_accept_in_secs=3,
  _delay_to_fill_in_secs=10, ...,
  start_timestamp=2000-01-01 09:35:00-05:00,
  end_timestamp=2000-01-01 10:10:00-05:00,
  num_accepted_target_lists=7, num_accepted_orders=7, num_filled_orders=7)
```
-/

/-- `bar_duration_in_secs=300`. -/
def bar_duration_in_secs : Nat := 300

/-- `max_wait_time_for_order_in_secs=305`. -/
def max_wait_time_for_order_in_secs : Nat := 305

/-- `_delay_to_accept_in_secs=3`. -/
def delay_to_accept_in_secs : Nat := 3

/-- `_delay_to_fill_in_secs=10`. -/
def delay_to_fill_in_secs : Nat := 10

/-- `start_timestamp=2000-01-01 09:35:00-05:00`, i.e. 9h35m after
midnight. -/
def start_timestamp : Nat := 34500

/-- `end_timestamp=2000-01-01 10:10:00-05:00`. -/
def end_timestamp : Nat := 36600

/-- `termination_condition=2000-01-01 10:10:05-05:00`. -/
def termination_condition : Nat := 36605

/-- `num_accepted_target_lists=7`. -/
def num_accepted_target_lists : Nat := 7

/-- `num_accepted_orders=7`. -/
def num_accepted_orders : Nat := 7

/-- `num_filled_orders=7`. -/
def num_filled_orders : Nat := 7

/-- Truncation of an instant to its bar boundary, as performed by the
`is_done` check of the loop (the artifact shows
`termination_condition=...10:10:05 -> termination_condition_tmp=...10:10:00`). -/
def truncToBar (t : Nat) : Nat := t / bar_duration_in_secs * bar_duration_in_secs

/-- A fill record as printed by the OrderProcessor, e.g.
`Fill: asset_id=101 fill_id=0 timestamp=2000-01-01 09:40:00-05:00
num_shares=-994.035785288 price=101.8`.  Quantities are exact
fixed-point integers: `num_shares_e9` is the signed share quantity in
units of `10 ^ (-9)` shares (the printed precision), `price_e1` the
price in units of `10 ^ (-1)`. -/
structure Fill : Type where
  asset_id : Nat
  fill_id : Nat
  timestamp : Nat
  num_shares_e9 : ℤ
  price_e1 : ℤ
  deriving DecidableEq

/-- The seven fills of the captured run, in emission order. -/
def fillsOfRun : List Fill :=
  [⟨101, 0, 34800, -994035785288, 1018⟩,
   ⟨101, 1, 35100, 1976354056408, 1006⟩,
   ⟨101, 2, 35400, -1976354056408, 1018⟩,
   ⟨101, 3, 35700, 1976354056408, 1006⟩,
   ⟨101, 4, 36000, -1976354056408, 1018⟩,
   ⟨101, 5, 36300, 1976354056408, 1006⟩,
   ⟨101, 6, 36600, -1976354056408, 1018⟩]

/-- An event of the OrderProcessor execution signature (lines
1348-1399 of the artifact).  Each constructor keeps the leading
timestamp of its log line; `isDoneCheck` also keeps the printed
truncated wall clock, truncated termination condition and verdict,
`diffNumRows` the row-count difference observed in `submitted_orders`,
`waitToAccept` the announced delay in seconds, `waitUntilDeadline` the
announced fulfillment deadline, and `receivedFills` the emitted
fills. -/
inductive OPEvent : Type
  | start (t : Nat)
  | isDoneCheck (t wallClockTmp termTmp : Nat) (done : Bool)
  | waitingForOrders (t : Nat)
  | diffNumRows (t n : Nat)
  | waitToAccept (t secs : Nat)
  | waitUntilDeadline (t deadline : Nat)
  | receivedFills (t : Nat) (fills : List Fill)
  | exitLoop (t targetListId : Nat)
  deriving DecidableEq

/-- The 45 events of the captured OrderProcessor run, transcribed line
by line from the execution signature. -/
def opTrace : List OPEvent :=
  [OPEvent.start 34500,
   OPEvent.isDoneCheck 34500 34500 36600 false,
   OPEvent.waitingForOrders 34500,
   OPEvent.diffNumRows 34506 1,
   OPEvent.waitToAccept 34506 3,
   OPEvent.waitUntilDeadline 34509 34800,
   OPEvent.receivedFills 34800 [⟨101, 0, 34800, -994035785288, 1018⟩],
   OPEvent.isDoneCheck 34800 34800 36600 false,
   OPEvent.waitingForOrders 34800,
   OPEvent.diffNumRows 34806 1,
   OPEvent.waitToAccept 34806 3,
   OPEvent.waitUntilDeadline 34809 35100,
   OPEvent.receivedFills 35100 [⟨101, 1, 35100, 1976354056408, 1006⟩],
   OPEvent.isDoneCheck 35100 35100 36600 false,
   OPEvent.waitingForOrders 35100,
   OPEvent.diffNumRows 35106 1,
   OPEvent.waitToAccept 35106 3,
   OPEvent.waitUntilDeadline 35109 35400,
   OPEvent.receivedFills 35400 [⟨101, 2, 35400, -1976354056408, 1018⟩],
   OPEvent.isDoneCheck 35400 35400 36600 false,
   OPEvent.waitingForOrders 35400,
   OPEvent.diffNumRows 35406 1,
   OPEvent.waitToAccept 35406 3,
   OPEvent.waitUntilDeadline 35409 35700,
   OPEvent.receivedFills 35700 [⟨101, 3, 35700, 1976354056408, 1006⟩],
   OPEvent.isDoneCheck 35700 35700 36600 false,
   OPEvent.waitingForOrders 35700,
   OPEvent.diffNumRows 35706 1,
   OPEvent.waitToAccept 35706 3,
   OPEvent.waitUntilDeadline 35709 36000,
   OPEvent.receivedFills 36000 [⟨101, 4, 36000, -1976354056408, 1018⟩],
   OPEvent.isDoneCheck 36000 36000 36600 false,
   OPEvent.waitingForOrders 36000,
   OPEvent.diffNumRows 36006 1,
   OPEvent.waitToAccept 36006 3,
   OPEvent.waitUntilDeadline 36009 36300,
   OPEvent.receivedFills 36300 [⟨101, 5, 36300, 1976354056408, 1006⟩],
   OPEvent.isDoneCheck 36300 36300 36600 false,
   OPEvent.waitingForOrders 36300,
   OPEvent.diffNumRows 36306 1,
   OPEvent.waitToAccept 36306 3,
   OPEvent.waitUntilDeadline 36309 36600,
   OPEvent.receivedFills 36600 [⟨101, 6, 36600, -1976354056408, 1018⟩],
   OPEvent.isDoneCheck 36600 36600 36600 true,
   OPEvent.exitLoop 36600 7]

/-- The start instant of bar `i` of the run (`i = 0` is the 09:35:00
bar). -/
def barStart (i : Nat) : Nat := start_timestamp + bar_duration_in_secs * i

/-- The six consecutive events of polling iteration `i` of the trace:
they follow the `start` event, six per iteration. -/
def iterBlock (i : Nat) : List OPEvent := (opTrace.drop (1 + 6 * i)).take 6

/-- Whether the six events of a polling iteration over bar start `T`
have the shape the loop promises: an `is_done` check answering `false`,
a poll of `submitted_orders` starting at `T` that observes at least one
new row within `max_wait_time_for_order_in_secs`, an acceptance wait of
exactly `delay_to_accept_in_secs`, a wait until the fulfillment
deadline `T + bar_duration_in_secs`, and a non-empty fill emission
exactly at that deadline. -/
def iterBlockOk (T : Nat) : List OPEvent → Bool
  | [OPEvent.isDoneCheck t0 _ _ done, OPEvent.waitingForOrders t1,
     OPEvent.diffNumRows t2 n, OPEvent.waitToAccept t3 s,
     OPEvent.waitUntilDeadline t4 dl, OPEvent.receivedFills t5 fs] =>
      done == false && t0 == T && t1 == T && decide (1 ≤ n) &&
      decide (t2 - t1 ≤ max_wait_time_for_order_in_secs) &&
      t3 == t2 && s == delay_to_accept_in_secs &&
      t4 == t2 + delay_to_accept_in_secs &&
      dl == T + bar_duration_in_secs && t5 == dl && !(fs.isEmpty)
  | _ => false

/-! ## The RealTimeDagRunner events of the captured run

`events_as_str` (lines 1248-1254 of the artifact): seven events, each a
pair of iteration number and `current_time`. -/

/-- A `RealTimeDagRunner` event: `num_it` and `current_time` (seconds
since midnight). -/
structure DagEvent : Type where
  num_it : Nat
  current_time : Nat
  deriving DecidableEq

/-- The seven events of `events_as_str`, transcribed from the
artifact. -/
def dagEvents : List DagEvent :=
  [⟨1, 34500⟩, ⟨2, 34800⟩, ⟨3, 35100⟩, ⟨4, 35400⟩,
   ⟨5, 35700⟩, ⟨6, 36000⟩, ⟨7, 36300⟩]

/-! ## The DatabasePortfolio ledger of the captured run

The portfolio source itself is not among the provided files; only its
rendered tables are (lines 1259-1311 of the artifact).  The tables
print shares and notionals rounded to two decimal digits, cash and
net wealth to three significant digits, and leverage to one decimal
digit, while the fills carry nine decimal digits; the full-precision
ledger is therefore reconstructed from the fills and checked, entry by
entry, against every rendered table. -/

/-- Absolute value on ℤ, written as an explicit conditional so that it
evaluates by kernel reduction. -/
def absZ (v : ℤ) : ℤ := if v < 0 then -v else v

/-- Round the fixed-point value `v / 10 ^ e` to the nearest integer,
halves upward: `⌊v / 10 ^ e + 1 / 2⌋` computed with floor division. -/
def roundFix (e : Nat) (v : ℤ) : ℤ :=
  Int.fdiv (2 * v + 10 ^ e) (2 * 10 ^ e)

/-- Round the fixed-point value `v / 10 ^ e` to two decimal digits,
returning hundredths: the integer a pandas table rendering the value at
two decimals prints (times 100). -/
def render2 (e : Nat) (v : ℤ) : ℤ := roundFix (e - 2) v

/-- Render a value `v / 10 ^ e` at three significant digits for
magnitudes in `[10 ^ 5, 10 ^ 7)`, the format the statistics table uses
for `cash` and `net_wealth` (e.g. `9.02e+05`, `1.10e+06`), returning
the exact integer the rendering denotes. -/
def renderSig3 (e : Nat) (v : ℤ) : ℤ :=
  if v < 1000000 * 10 ^ e then roundFix (e + 3) v * 1000
  else roundFix (e + 4) v * 10000

/-- Render the ratio `num / den` (`den > 0`) at one decimal digit,
returning tenths: `⌊10 * num / den + 1 / 2⌋` computed with floor
division. -/
def renderRatio1 (num den : ℤ) : ℤ := Int.fdiv (20 * num + den) (2 * den)

/-- Modelled from the spec: the DatabasePortfolio bookkeeping that
"reconciles portfolio state (holdings, PnL, cash, leverage)"; its
source is not among the provided files, so the ledger is reconstructed
at full precision from the fills of the captured run.
`executed_trades_shares` of snapshot `k`, in `10 ^ (-9)` share units:
the quantity of the fill emitted at the bar the snapshot observes
(snapshot `0` precedes every fill and holds no trade). -/
def executed_trades_shares_e9 (k : Nat) : ℤ :=
  match k with
  | 0 => 0
  | k + 1 =>
    match fillsOfRun.get? k with
    | some f => f.num_shares_e9
    | none => 0

/-- Modelled from the spec: the mark-to-market price of snapshot `k` in
`10 ^ (-1)` units, the price of the fill the snapshot observes
(snapshot `0` holds nothing, so its price is irrelevant and set
to 0). -/
def markPrice_e1 (k : Nat) : ℤ :=
  match k with
  | 0 => 0
  | k + 1 =>
    match fillsOfRun.get? k with
    | some f => f.price_e1
    | none => 0

/-- Modelled from the spec: `holdings_shares` of snapshot `k` in
`10 ^ (-9)` share units, the running sum of the executed trades. -/
def holdings_shares_e9 : Nat → ℤ
  | 0 => executed_trades_shares_e9 0
  | k + 1 => holdings_shares_e9 k + executed_trades_shares_e9 (k + 1)

/-- Modelled from the spec: `holdings_notional` in `10 ^ (-10)`
currency units, the holdings marked to market. -/
def holdings_notional_e10 (k : Nat) : ℤ :=
  holdings_shares_e9 k * markPrice_e1 k

/-- Modelled from the spec: `executed_trades_notional` in `10 ^ (-10)`
currency units, the executed trade marked at its fill price. -/
def executed_trades_notional_e10 (k : Nat) : ℤ :=
  executed_trades_shares_e9 k * markPrice_e1 k

/-- Modelled from the spec: the cash account in `10 ^ (-10)` currency
units, starting from the 1e6 initial cash shown by the statistics table
and debited by each executed trade's notional. -/
def cash_e10 : Nat → ℤ
  | 0 => 1000000 * 10 ^ 10
  | k + 1 => cash_e10 k - executed_trades_notional_e10 (k + 1)

/-- Modelled from the spec: `nmv` (net market value), the holdings
notional, in `10 ^ (-10)` units. -/
def nmv_e10 (k : Nat) : ℤ := holdings_notional_e10 k

/-- Modelled from the spec: `gmv` (gross market value), the absolute
holdings notional of the single-asset run, in `10 ^ (-10)` units. -/
def gmv_e10 (k : Nat) : ℤ := absZ (holdings_notional_e10 k)

/-- Modelled from the spec: `net_wealth = nmv + cash`, in `10 ^ (-10)`
units. -/
def net_wealth_e10 (k : Nat) : ℤ := nmv_e10 k + cash_e10 k

/-- Modelled from the spec: `pnl` of snapshot `k + 1` in `10 ^ (-10)`
units, the change of holdings notional not accounted for by the
executed trade. -/
def pnl_e10 (k : Nat) : ℤ :=
  holdings_notional_e10 (k + 1) - holdings_notional_e10 k
    - executed_trades_notional_e10 (k + 1)

/-- Modelled from the spec: `gross_volume`, the absolute executed
notional, in `10 ^ (-10)` units. -/
def gross_volume_e10 (k : Nat) : ℤ := absZ (executed_trades_notional_e10 k)

/-- Modelled from the spec: `net_volume`, the signed executed notional,
in `10 ^ (-10)` units. -/
def net_volume_e10 (k : Nat) : ℤ := executed_trades_notional_e10 k

/-! The rendered tables, transcribed from the artifact.  Two-decimal
columns are stored as integer hundredths, `cash` and `net_wealth` as
plain integers (their three-significant-digit renderings
`1.00e+06`, `9.02e+05`, ... are exact integers), `leverage` as integer
tenths. -/

/-- Snapshot instants of the portfolio tables: `09:35:05.100000` plus
one bar per snapshot, in tenths of a second since midnight. -/
def snapshotTime_ds (k : Nat) : Nat := 345051 + 3000 * k

/-- Rendered `holdings_shares` column, in hundredths. -/
def tblHoldingsShares : List ℤ :=
  [0, -99404, 98232, -99404, 98232, -99404, 98232]

/-- Rendered `holdings_notional` column, in hundredths. -/
def tblHoldingsNotional : List ℤ :=
  [0, -10119284, 9882122, -10119284, 9882122, -10119284, 9882122]

/-- Rendered `executed_trades_shares` column, in hundredths. -/
def tblExecutedTradesShares : List ℤ :=
  [0, -99404, 197635, -197635, 197635, -197635, 197635]

/-- Rendered `executed_trades_notional` column (six rows, the table
starts at 09:40:05.1), in hundredths. -/
def tblExecutedTradesNotional : List ℤ :=
  [-10119284, 19882122, -20119284, 19882122, -20119284, 19882122]

/-- Rendered `pnl` column (six rows after the leading NaN), in
hundredths. -/
def tblPnl : List ℤ := [0, 119284, 117878, 119284, 117878, 119284]

/-- Rendered `gross_volume` column of the statistics table, in
hundredths. -/
def tblGrossVolume : List ℤ :=
  [0, 10119284, 19882122, 20119284, 19882122, 20119284, 19882122]

/-- Rendered `net_volume` column of the statistics table, in
hundredths. -/
def tblNetVolume : List ℤ :=
  [0, -10119284, 19882122, -20119284, 19882122, -20119284, 19882122]

/-- Rendered `gmv` column of the statistics table, in hundredths. -/
def tblGmv : List ℤ :=
  [0, 10119284, 9882122, 10119284, 9882122, 10119284, 9882122]

/-- Rendered `nmv` column of the statistics table, in hundredths. -/
def tblNmv : List ℤ :=
  [0, -10119284, 9882122, -10119284, 9882122, -10119284, 9882122]

/-- Rendered `cash` column of the statistics table (`1.00e+06`,
`1.10e+06`, `9.02e+05`, ...). -/
def tblCash : List ℤ :=
  [1000000, 1100000, 902000, 1100000, 905000, 1110000, 907000]

/-- Rendered `net_wealth` column of the statistics table. -/
def tblNetWealth : List ℤ :=
  [1000000, 1000000, 1000000, 1000000, 1000000, 1000000, 1010000]

/-- Rendered `leverage` column of the statistics table, in tenths. -/
def tblLeverage : List ℤ := [0, 1, 1, 1, 1, 1, 1]

/-! ## The Binance sandbox ETL boundary artifacts

The sandbox ETL scripts themselves are not among the provided files;
the tutorial document inside the artifact captures their observable
boundary: the CSV produced by `download_to_csv.py` (its header line at
line 734), the QA run of `load_and_validate.py` (lines 762-771), and
the Postgres tables the Airflow pipeline fills (lines 801 and 803). -/

/-- Modelled from the spec: the two QA checks that `run_all_checks`
(in `validate.py`, not among the provided files) performs, per the
captured run of `load_and_validate.py`. -/
inductive QaCheck : Type
  | emptyDataset
  | gapsInTimestamp
  deriving DecidableEq

/-- Printable name of a QA check, as the log shows it. -/
def qaCheckName : QaCheck → String
  | QaCheck.emptyDataset => "EmptyDatasetCheck"
  | QaCheck.gapsInTimestamp => "GapsInTimestampCheck"

/-- The outcome a QA check reports: only `PASSED` or `FAILED`. -/
inductive QaOutcome : Type
  | passed
  | failed
  deriving DecidableEq

/-- Printable form of a QA outcome. -/
def qaOutcomeName : QaOutcome → String
  | QaOutcome.passed => "PASSED"
  | QaOutcome.failed => "FAILED"

/-- Modelled from the spec: the check suite `run_all_checks` iterates
over — exactly the empty-dataset check and the timestamp-gap check. -/
def qaChecks : List QaCheck := [QaCheck.emptyDataset, QaCheck.gapsInTimestamp]

/-- Modelled from the spec: `run_all_checks` evaluates each check of
the suite once on the loaded dataset (abstracted as the verdict
function `verdict`) and reports its name with `PASSED` or `FAILED`; it
performs nothing else — no retry, backpressure, or recovery step. -/
def run_all_checks (verdict : QaCheck → Bool) : List (String × QaOutcome) :=
  qaChecks.map (fun c =>
    (qaCheckName c, if verdict c then QaOutcome.passed else QaOutcome.failed))

/-- The header line of the CSV written by `download_to_csv.py`, as
captured at line 734 of the artifact. -/
def downloadToCsvHeader : String :=
  "currency_pair,open,high,low,close,volume,timestamp,end_download_timestamp"

/-- The CSV columns of the header, in order. -/
def downloadToCsvColumns : List String :=
  [("currency_pair"), ("open"), ("high"), ("low"), ("close"),
   ("volume"), ("timestamp"), ("end_download_timestamp")]

/-- The Postgres table the Airflow pipeline stores downloaded 1-minute
OHLCV bars into (line 801 of the artifact). -/
def binanceDownloadedTable : String := "binance_ohlcv_spot_downloaded_1min"

/-- The Postgres table the Airflow pipeline stores resampled 5-minute
OHLCV bars into (line 803 of the artifact). -/
def binanceResampledTable : String := "binance_ohlcv_spot_resampled_5min"

/-- The number of bars the OrderProcessor processed: one fill emission
per bar. -/
def numProcessedBars : Nat :=
  (opTrace.filter (fun e => match e with
    | OPEvent.receivedFills _ _ => true
    | _ => false)).length

/-- Whether fill `k` of the run is recorded as the executed trade of
portfolio snapshot `k + 1`: the snapshot instant is 5.1 seconds after
the fill's bar boundary and the ledger entry renders the fill's signed
share quantity at two decimals. -/
def fillRecordedInLedger (k : Nat) : Bool :=
  match fillsOfRun.get? k with
  | some f =>
      render2 9 f.num_shares_e9 == tblExecutedTradesShares.getD (k + 1) 0 &&
      snapshotTime_ds (k + 1) == f.timestamp * 10 + 51
  | none => false

/-! ## Theorems -/

/-- C1: in every iteration of the OrderProcessor polling loop, the
processor first polls the `submitted_orders` table until a new row
appears (`diff_num_rows >= 1`), then waits exactly the configured
acceptance delay (`_delay_to_accept_in_secs = 3`) before accepting the
order list, then waits until the fulfillment deadline (the next bar
boundary, `bar_duration_in_secs = 300`), and only at that deadline
emits the fills; the wait for a submitted order stays within
`max_wait_time_for_order_in_secs = 305`. -/
theorem orderProcessor_polling_iteration_structure :
    delay_to_accept_in_secs = 3 ∧ bar_duration_in_secs = 300 ∧
    max_wait_time_for_order_in_secs = 305 ∧
    ∀ i : Fin 7, iterBlockOk (barStart i) (iterBlock i) = true := by
  decide

/-- C2: the OrderProcessor run loop exits exactly when the wall clock
reaches the termination condition truncated to its bar boundary
(10:10:05 truncated to 10:10:00): every `is_done` check answers
`termination_condition_tmp ≤ wall_clock_time_tmp`, the single positive
check is the final one at 10:10:00 and is immediately followed by the
loop exit, and at exit the counters `num_accepted_target_lists`,
`num_accepted_orders` and `num_filled_orders` all equal the number of
processed bars, 7. -/
theorem orderProcessor_run_loop_termination :
    (opTrace.all (fun e => match e with
      | OPEvent.isDoneCheck _ wc tc d =>
          tc == truncToBar termination_condition && (d == decide (tc ≤ wc))
      | _ => true)) = true ∧
    truncToBar termination_condition = end_timestamp ∧
    (opTrace.filter (fun e => match e with
      | OPEvent.isDoneCheck _ _ _ d => d
      | _ => false)).length = 1 ∧
    opTrace.drop 43 =
      [OPEvent.isDoneCheck 36600 36600 36600 true, OPEvent.exitLoop 36600 7] ∧
    (opTrace.filter (fun e => match e with
      | OPEvent.exitLoop _ _ => true
      | _ => false)).length = 1 ∧
    num_accepted_target_lists = numProcessedBars ∧
    num_accepted_orders = numProcessedBars ∧
    num_filled_orders = numProcessedBars ∧
    numProcessedBars = 7 := by
  decide

/-- C3: every portfolio statistics row satisfies the accounting
identities `net_wealth = nmv + cash`, `nmv = holdings_notional`,
`gmv = |holdings_notional|`, `leverage = gmv / net_wealth`, and for
every snapshot after the first
`holdings_shares(t) = holdings_shares(t-1) + executed_trades_shares(t)`
and
`pnl(t) = (holdings_notional(t) - holdings_notional(t-1)) - executed_trades_notional(t)`;
the full-precision ledger satisfying them renders, entry by entry, to
every table the run prints (two-decimal columns, three-significant-digit
cash and net wealth, one-decimal leverage). -/
theorem databasePortfolio_accounting_identities :
    (∀ k : Fin 7, net_wealth_e10 k = nmv_e10 k + cash_e10 k) ∧
    (∀ k : Fin 7, nmv_e10 k = holdings_notional_e10 k) ∧
    (∀ k : Fin 7, gmv_e10 k = absZ (holdings_notional_e10 k)) ∧
    (∀ k : Fin 6, holdings_shares_e9 (k + 1) =
      holdings_shares_e9 k + executed_trades_shares_e9 (k + 1)) ∧
    (∀ k : Fin 6, pnl_e10 k = holdings_notional_e10 (k + 1)
      - holdings_notional_e10 k - executed_trades_notional_e10 (k + 1)) ∧
    (∀ k : Fin 7, render2 9 (holdings_shares_e9 k) = tblHoldingsShares.getD k 0) ∧
    (∀ k : Fin 7, render2 10 (holdings_notional_e10 k) = tblHoldingsNotional.getD k 0) ∧
    (∀ k : Fin 7, render2 9 (executed_trades_shares_e9 k) = tblExecutedTradesShares.getD k 0) ∧
    (∀ k : Fin 6, render2 10 (executed_trades_notional_e10 (k + 1)) = tblExecutedTradesNotional.getD k 0) ∧
    (∀ k : Fin 6, render2 10 (pnl_e10 k) = tblPnl.getD k 0) ∧
    (∀ k : Fin 7, render2 10 (gross_volume_e10 k) = tblGrossVolume.getD k 0) ∧
    (∀ k : Fin 7, render2 10 (net_volume_e10 k) = tblNetVolume.getD k 0) ∧
    (∀ k : Fin 7, render2 10 (gmv_e10 k) = tblGmv.getD k 0) ∧
    (∀ k : Fin 7, render2 10 (nmv_e10 k) = tblNmv.getD k 0) ∧
    (∀ k : Fin 7, renderSig3 10 (cash_e10 k) = tblCash.getD k 0) ∧
    (∀ k : Fin 7, renderSig3 10 (net_wealth_e10 k) = tblNetWealth.getD k 0) ∧
    (∀ k : Fin 7, renderRatio1 (gmv_e10 k) (net_wealth_e10 k) = tblLeverage.getD k 0) := by
  decide

/-- C4: the real-time DAG runner advances through discrete bars: for
every iteration `i` from 1 to 7 the `i`-th event's `current_time`
equals 09:35:00 plus `(i - 1)` bar durations, consecutive events are
one bar duration apart, and no event occurs off a bar boundary. -/
theorem realTimeDagRunner_bar_events :
    dagEvents.length = 7 ∧
    (∀ i : Fin 7, dagEvents.getD i ⟨0, 0⟩ =
      ⟨i + 1, 34500 + bar_duration_in_secs * i⟩) ∧
    (∀ i : Fin 6, (dagEvents.getD (i + 1) ⟨0, 0⟩).current_time =
      (dagEvents.getD i ⟨0, 0⟩).current_time + bar_duration_in_secs) ∧
    (dagEvents.all (fun e => e.current_time % bar_duration_in_secs == 0)) = true := by
  decide

/-- C5 counterexample: the claim fails on the captured run — the
OrderProcessor filled 7 orders, but the ledger holds only 6 non-zero
executed-trade rows, because the last fill (fill_id 6, at 10:10:00)
postdates every portfolio snapshot (the last snapshot is at
10:05:05.1). -/
theorem orderProcessor_fill_count_mismatch :
    num_filled_orders = 7 ∧
    (tblExecutedTradesShares.filter (fun v => v ≠ 0)).length = 6 ∧
    ¬(num_filled_orders =
      (tblExecutedTradesShares.filter (fun v => v ≠ 0)).length) ∧
    fillsOfRun.get? 6 = some ⟨101, 6, 36600, -1976354056408, 1018⟩ ∧
    ((List.range 7).all (fun k => snapshotTime_ds k < 36600 * 10)) = true := by
  decide

/-- C5 amended: every fill except the final one (emitted at the
termination bar boundary 10:10:00, after the last snapshot) is recorded
by the DatabasePortfolio as the executed trade of the snapshot taken
5.1 seconds after that bar boundary, the ledger entry rendering the
fill's signed share quantity at two decimals; consequently the number
of non-zero executed-trade rows equals `num_filled_orders - 1`. -/
theorem orderProcessor_fill_ledger_correspondence :
    (∀ k : Fin 6, fillRecordedInLedger k = true) ∧
    (tblExecutedTradesShares.filter (fun v => v ≠ 0)).length =
      num_filled_orders - 1 := by
  decide

/-- C6: the sandbox validation pipeline's `run_all_checks` performs
exactly two QA checks — the empty-dataset check and the timestamp-gap
check, in that order — and reports each outcome only as `PASSED` or
`FAILED`, whatever the dataset's verdicts are; it executes nothing
else. -/
theorem run_all_checks_two_pass_fail_checks :
    ∀ verdict : QaCheck → Bool,
      (run_all_checks verdict).length = 2 ∧
      (run_all_checks verdict).map Prod.fst =
        [("EmptyDatasetCheck"), ("GapsInTimestampCheck")] ∧
      ((run_all_checks verdict).all (fun p =>
        p.2 == QaOutcome.passed || p.2 == QaOutcome.failed)) = true := by
  intro verdict
  refine ⟨rfl, rfl, ?_⟩
  cases h1 : verdict QaCheck.emptyDataset <;>
    cases h2 : verdict QaCheck.gapsInTimestamp <;>
      simp [run_all_checks, qaChecks, h1, h2]

/-- C7: the Binance sandbox ETL writes boundary artifacts of fixed
shape — a CSV whose header is exactly the eight columns
`currency_pair, open, high, low, close, volume, timestamp,
end_download_timestamp`, and Postgres tables
`binance_ohlcv_spot_downloaded_1min` for downloaded 1-minute bars and
`binance_ohlcv_spot_resampled_5min` for resampled 5-minute bars. -/
theorem binance_etl_boundary_artifacts :
    downloadToCsvHeader = String.intercalate (",") downloadToCsvColumns ∧
    downloadToCsvColumns =
      [("currency_pair"), ("open"), ("high"), ("low"), ("close"),
       ("volume"), ("timestamp"), ("end_download_timestamp")] ∧
    downloadToCsvColumns.length = 8 ∧
    binanceDownloadedTable = "binance_ohlcv_spot_downloaded_1min" ∧
    binanceResampledTable = "binance_ohlcv_spot_resampled_5min" := by
  exact ⟨rfl, rfl, rfl, rfl, rfl⟩

/-- C8: for every filesystem state and home directory, the
credential-check script's `test_gspread_pandas` echoes the WARNING
about the `google_secret.json` file: its first conditional tests
`$_aws_cred_file`, which is unset in the function's scope and expands
to the empty string, so `[ ! -e "" ]` always succeeds and the existence
of `google_secret.json` is never actually checked. -/
theorem test_gspread_pandas_always_warns_google_secret :
    ∀ (home : String) (fs : FsState),
      lookupVar (gspreadEnv home) ("_aws_cred_file") = "" ∧
      warnMsg ("Google API")
          (GSPREAD_PANDAS_VOLUME home ++ "google_secret.json")
        ∈ test_gspread_pandas home fs := by
  intro home fs
  refine ⟨rfl, ?_⟩
  simp [test_gspread_pandas, testE, lookupVar, gspreadEnv]

/-- C9: for every invocation of `lint_md.sh`, the `docker run` step
executes the image `markdownlint:latest`, which differs from the image
the script just built and tagged (`sorrentum_mdlint`, the value of
`DOCKER_CONTAINER_NAME`); the freshly built image is never the one
run, for any input files. -/
theorem lint_md_runs_unbuilt_image :
    ∀ files : List String,
      lintMdRunImage files = "markdownlint:latest" ∧
      lintMdRunImage files ≠ DOCKER_CONTAINER_NAME ∧
      DockerCmd.build DOCKER_CONTAINER_NAME ∈ lintMdDockerCmds files := by
  intro files
  have h1 : lintMdRunImage files = "markdownlint:latest" := rfl
  refine ⟨h1, ?_, ?_⟩
  · rw [h1]; decide
  · simp [lintMdDockerCmds]

/-- C10: the credential-check script always terminates with exit
status 0: under `set -e`, a missing AWS or Google credential file only
makes a conditional echo a WARNING (exit status 0), so every
combination of present and absent credential files yields the same
successful exit. -/
theorem credential_script_exits_zero :
    ∀ (home : String) (fs : FsState),
      test_aws_status home fs = 0 ∧
      test_gspread_pandas_status home fs = 0 ∧
      credentialScriptExit home fs = 0 := by
  intro home fs
  refine ⟨?_, ?_, ?_⟩ <;>
    simp [credentialScriptExit, test_aws_status, test_gspread_pandas_status,
      ifStatus, echoStatus, runSeq]

end Kaizenflow
